import Mathlib

/-
Verification of the multi-instance coordination and adaptive polling engine
of the auto-accept-agent extension.

The definitions below are shallow embeddings of the JavaScript source:
  - src/extension/extension.js  (lease check in the maintenance tick,
    poll scheduling, frequency updates, background-mode toggle, commands)
  - src/unnamed/part_000        (payment / entitlement module: trial clock,
    trial-expiry notification flag, pro status, bounded retry polling)

Timestamps and intervals are modelled as Int (JavaScript numbers holding
millisecond epoch times).  The durable key-value store (vscode globalState)
is modelled as explicit record fields; a key that may be absent is an
Option.  JavaScript truthiness tests on stored values are modelled
explicitly: a string is falsy iff empty, a number is falsy iff zero,
an absent value is falsy.
-/

namespace AutoAccept

/-! ### Lease state shared through the durable store

The maintenance tick in startPolling (extension.js lines 570-601) reads two
keys, `<ide>-instance-lock` (an extension id string) and
`<ide>-instance-lock-ping` (a millisecond timestamp).  Both keys of one
coordination domain are modelled together. -/

structure TickLockState where
  activeInstance : Option String
  lastPing : Option Int
deriving DecidableEq, Repr

/-- The lease check performed by the body of the 5-second maintenance-tick
timer in startPolling (extension.js lines 573-598), for one instance `myId`
at time `now`.  Returns whether this instance proceeds as leader, and the
store state after the tick.  The code stands by (non-leader, no write)
exactly when a truthy foreign holder is recorded together with a truthy
ping younger than 15000 ms; in every other case it writes `(myId, now)` to
both keys and proceeds as leader.  The external driver call (syncSessions)
performed by the leader is elided. -/
def tickLeaseCheck (s : TickLockState) (myId : String) (now : Int) :
    Bool × TickLockState :=
  match s.activeInstance, s.lastPing with
  | some a, some p =>
      if a ≠ "" ∧ a ≠ myId ∧ p ≠ 0 ∧ now - p < 15000 then
        (false, s)
      else
        (true, ⟨some myId, some now⟩)
  | some _, none => (true, ⟨some myId, some now⟩)
  | none, _ => (true, ⟨some myId, some now⟩)

/-- Run a sequence of maintenance ticks `(instanceId, time)` against the
shared store. -/
def runTicks (s : TickLockState) : List (String × Int) → TickLockState
  | [] => s
  | (i, t) :: rest => runTicks (tickLeaseCheck s i t).2 rest

/-- The leader results of a sequence of maintenance ticks, in order. -/
def tickResults (s : TickLockState) : List (String × Int) → List Bool
  | [] => []
  | (i, t) :: rest =>
      (tickLeaseCheck s i t).1 :: tickResults (tickLeaseCheck s i t).2 rest

/-- Helper for believesLeader: fold the trace carrying the store and the
latest tick result of instance `i`. -/
def runBelief (s : TickLockState) (i : String) (b : Bool) :
    List (String × Int) → Bool
  | [] => b
  | (j, t) :: rest =>
      runBelief (tickLeaseCheck s j t).2 i
        (if j = i then (tickLeaseCheck s j t).1 else b) rest

/-- Whether, after the trace has run from store `s`, instance `i`
currently reports itself leader: the result of its latest tick (false if
it never ticked). -/
def believesLeader (s : TickLockState) (trace : List (String × Int))
    (i : String) : Bool :=
  runBelief s i false trace

/-- The unused helper checkInstanceLock (extension.js lines 756-779): the
10-second variant of the lease check over the keys
auto-accept-instance-lock / auto-accept-instance-heartbeat, with the
heartbeat read with default 0.  Pro users bypass the lock entirely.
It is defined in the source but never invoked by the maintenance tick. -/
def checkInstanceLock (isPro : Bool) (lockId : Option String)
    (lastHeartbeat : Int) (selfId : String) (now : Int) :
    Bool × Option String × Int :=
  if isPro then (true, lockId, lastHeartbeat)
  else if lockId.getD "" = "" ∨ now - lastHeartbeat > 10000 then
    (true, some selfId, now)
  else if lockId = some selfId then
    (true, lockId, now)
  else
    (false, lockId, lastHeartbeat)

/-! ### Payment / entitlement module (src/unnamed/part_000)

The module keeps the vscode extension context in `_context` (null until
init) and a cached pro flag `_isPro` (false until init).  The durable keys
it reads and writes are modelled as a GlobalStore record. -/

/-- TRIAL_DURATION_MS = 3 * 24 * 60 * 60 * 1000 (3 days). -/
def TRIAL_DURATION_MS : Int := 3 * 24 * 60 * 60 * 1000

/-- The durable global-state keys used by the payment module:
auto-accept-isPro (default false), auto-accept-trial-start (absent until
startTrial), auto-accept-trial-notified (default false),
auto-accept-frequency (default 1000 on read), auto-accept-userId and
auto-accept-plan. -/
structure GlobalStore where
  isProKey : Bool
  trialStart : Option Int
  trialNotified : Bool
  freqKey : Option Int
  userId : Option String
  plan : Option String
deriving DecidableEq, Repr

/-- The in-process module state: `_context` (none while uninitialized,
otherwise the store it wraps) and `_isPro` (initially false). -/
structure PaymentModule where
  ctx : Option GlobalStore
  isPro : Bool
deriving DecidableEq, Repr

/-- The module state before init is ever called: `_context = null`,
`_isPro = false`. -/
def uninitializedPayment : PaymentModule := ⟨none, false⟩

/-- isTrialActive (part_000 lines 64-69): false without context, false for
a falsy stored trial start (absent or 0), otherwise
`(now - trialStart) < TRIAL_DURATION_MS`. -/
def isTrialActive (m : PaymentModule) (now : Int) : Bool :=
  match m.ctx with
  | none => false
  | some s =>
      match s.trialStart with
      | none => false
      | some t => if t = 0 then false else decide (now - t < TRIAL_DURATION_MS)

/-- hasTrialStarted (part_000 lines 71-74): false without context,
otherwise whether the trial-start key is recorded (strict
`!== undefined` test, so a stored 0 still counts as started). -/
def hasTrialStarted (m : PaymentModule) : Bool :=
  match m.ctx with
  | none => false
  | some s => s.trialStart.isSome

/-- hasProAccess (part_000 lines 76-78): `_isPro || isTrialActive()`. -/
def hasProAccess (m : PaymentModule) (now : Int) : Bool :=
  m.isPro || isTrialActive m now

/-- getTrialDaysLeft (part_000 lines 80-86): 0 without context or without a
truthy trial start, else `max 0 (ceil (remaining / 1 day))`. -/
def getTrialDaysLeft (m : PaymentModule) (now : Int) : Int :=
  match m.ctx with
  | none => 0
  | some s =>
      match s.trialStart with
      | none => 0
      | some t =>
          if t = 0 then 0
          else
            let remaining := TRIAL_DURATION_MS - (now - t)
            max 0 ((remaining + (24 * 60 * 60 * 1000) - 1) / (24 * 60 * 60 * 1000))

/-- getPollFrequency (part_000 lines 108-114): 300 without context; with
pro access the stored frequency (default 1000); otherwise 300. -/
def getPollFrequency (m : PaymentModule) (now : Int) : Int :=
  match m.ctx with
  | none => 300
  | some s => if hasProAccess m now then s.freqKey.getD 1000 else 300

/-- setProStatus (part_000 lines 117-126): sets `_isPro`, persists it, and
clears the trial-notified flag exactly when the new value is true. -/
def setProStatus (m : PaymentModule) (val : Bool) : PaymentModule :=
  { isPro := val,
    ctx := m.ctx.map fun s =>
      { s with isProKey := val,
               trialNotified := if val = true then false else s.trialNotified } }

/-- startTrial (part_000 lines 128-132): records `Date.now()` under the
trial-start key (no guard of its own). -/
def startTrial (m : PaymentModule) (now : Int) : PaymentModule :=
  { m with ctx := m.ctx.map fun s => { s with trialStart := some now } }

/-- checkTrialExpiration (part_000 lines 26-48): returns early without
context or when already pro; notifies (and sets the notified flag) exactly
when a truthy trial start is recorded, the trial is no longer active, and
the flag is not yet set.  The Bool result records whether the expiry
notification was shown on this call. -/
def checkTrialExpiration (m : PaymentModule) (now : Int) :
    PaymentModule × Bool :=
  match m.ctx with
  | none => (m, false)
  | some s =>
      if m.isPro then (m, false)
      else if s.trialStart.getD 0 ≠ 0 ∧
          isTrialActive m now = false ∧ s.trialNotified = false then
        ({ m with ctx := some { s with trialNotified := true } }, true)
      else (m, false)

/-- init (part_000 lines 51-57): stores the context, loads `_isPro` from
the pro key (default false), then runs checkTrialExpiration. -/
def paymentInit (s : GlobalStore) (now : Int) : PaymentModule :=
  (checkTrialExpiration ⟨some s, s.isProKey⟩ now).1

/-- Run a sequence of trial-expiration checks at the given times, counting
how many of them showed the expiry notification. -/
def runChecks (m : PaymentModule) : List Int → PaymentModule × Nat
  | [] => (m, 0)
  | now :: rest =>
      let r := checkTrialExpiration m now
      let rr := runChecks r.1 rest
      (rr.1, (if r.2 then 1 else 0) + rr.2)

/-- Outcome of the licensing network call, as parsed from the response
body: err models a transport or JSON parse failure. -/
inductive NetResult where
  | ok (isProField : Bool) (plan : Option String)
  | err
deriving DecidableEq, Repr

/-- verifyLicense (part_000 lines 135-160): resolves false without context
or without a truthy stored userId; on a network or parse error resolves
false; otherwise persists a truthy plan field and resolves
`isPro === true && plan in {lifetime, monthly} (case-insensitive)`.
Returns the resolved value and the module state after the call. -/
def verifyLicense (m : PaymentModule) (net : NetResult) :
    Bool × PaymentModule :=
  match m.ctx with
  | none => (false, m)
  | some s =>
      if s.userId.getD "" = "" then (false, m)
      else
        match net with
        | .err => (false, m)
        | .ok isProField plan =>
            let truthyPlan := plan.getD "" ≠ ""
            let m1 := if truthyPlan then
                { m with ctx := some { s with plan := plan } }
              else m
            let isValidPlan := truthyPlan ∧
              ((plan.getD "").toLower = "lifetime" ∨
                (plan.getD "").toLower = "monthly")
            (isProField = true ∧ isValidPlan, m1)

/-! ### Bounded retry polling (startProPolling, part_000 lines 242-292) -/

/-- MAX_PRO_POLLING_ATTEMPTS = 24. -/
def MAX_PRO_POLLING_ATTEMPTS : Nat := 24

/-- Terminal outcome of a retry session. -/
inductive ProOutcome where
  | succeeded
  | exhausted
deriving DecidableEq, Repr

/-- State of one retry session: the attempt counter `_proPollingAttempts`,
the number of probe (verifyLicense) invocations made so far, and the
reported outcome (none while the timer is still running). -/
structure ProPollState where
  attempts : Nat
  probeCalls : Nat
  outcome : Option ProOutcome
deriving DecidableEq, Repr

/-- startProPolling (part_000 lines 242-252): clears any prior timer and
resets the attempt counter to 0, so a new session always begins in this
state regardless of any session running before. -/
def startProPollingState : ProPollState := ⟨0, 0, none⟩

/-- One firing of the 5-second retry timer (part_000 lines 252-291).
`probe k` is the result of the k-th verifyLicense invocation.  The tick
increments the attempt counter; if it now exceeds the maximum it stops and
reports exhausted without probing; otherwise it probes, stopping with
succeeded on a true result and continuing on false.  Once an outcome is
reported, the interval timer has been cleared, so further firings are
impossible; this is modelled by making the step the identity then. -/
def proPollTick (probe : Nat → Bool) (s : ProPollState) : ProPollState :=
  match s.outcome with
  | some _ => s
  | none =>
      let a := s.attempts + 1
      if MAX_PRO_POLLING_ATTEMPTS < a then
        { attempts := a, probeCalls := s.probeCalls, outcome := some .exhausted }
      else if probe a then
        { attempts := a, probeCalls := s.probeCalls + 1, outcome := some .succeeded }
      else
        { attempts := a, probeCalls := s.probeCalls + 1, outcome := none }

/-- The session state after `n` timer firings of a fresh session. -/
def runProPoll (probe : Nat → Bool) : Nat → ProPollState
  | 0 => startProPollingState
  | n + 1 => proPollTick probe (runProPoll probe n)

/-! ### Background-mode toggle (handleBackgroundToggle, extension.js
lines 448-532) -/

/-- The observable action a background-toggle request ends in. -/
inductive BgAction where
  | denied
  | setupRequested
  | cancelled
  | completed
deriving DecidableEq, Repr

/-- The user choice in the first-time confirmation dialog. -/
inductive BgChoice where
  | enable
  | dontShowAndEnable
  | cancel
deriving DecidableEq, Repr

/-- The state handleBackgroundToggle reads and writes: the in-process
backgroundModeEnabled flag and the persisted keys
auto-accept-background-dont-show and auto-accept-background-mode. -/
structure BgState where
  backgroundModeEnabled : Bool
  dontShowAgain : Bool
  bgModeKey : Bool
deriving DecidableEq, Repr

/-- handleBackgroundToggle (extension.js lines 448-532).  Without pro
access: a denial message, no state change.  Turning the mode on while the
CDP resource is unavailable and the relauncher is initialized: the setup
flow (ensureCDPAndRelaunch) is requested and the handler returns with the
state unchanged.  Otherwise the first-time dialog (unless suppressed) or
the plain toggle runs.  The driver stop/sync calls are elided. -/
def handleBackgroundToggle (hasPro : Bool) (cdpAvailable : Bool)
    (hasRelauncher : Bool) (choice : BgChoice) (s : BgState) :
    BgAction × BgState :=
  if hasPro = false then (.denied, s)
  else if s.backgroundModeEnabled = false ∧ cdpAvailable = false ∧
      hasRelauncher = true then
    (.setupRequested, s)
  else if s.dontShowAgain = false ∧ s.backgroundModeEnabled = false then
    match choice with
    | .cancel => (.cancelled, s)
    | .enable =>
        (.completed, { s with backgroundModeEnabled := true, bgModeKey := true })
    | .dontShowAndEnable =>
        (.completed, ⟨true, true, true⟩)
  else
    (.completed,
      { s with backgroundModeEnabled := !s.backgroundModeEnabled,
               bgModeKey := !s.backgroundModeEnabled })

/-! ### Extension-level state and the public command surface
(extension.js activate, lines 100-296, and the registered handlers) -/

/-- The in-process extension state relevant to the claims: the payment
module (which wraps the durable store), the enabled flag and its persisted
key auto-accept-enabled-global, the mutable pollFrequency variable, the
fast-tick timer (commandPollTimer) modelled as the interval it was created
with (none when no timer runs), the background-mode flags, and the banned
command patterns.  The maintenance timer and the CDP driver are elided. -/
structure ExtState where
  pay : PaymentModule
  isEnabled : Bool
  enabledKey : Bool
  pollFrequency : Int
  fastTimer : Option Int
  backgroundModeEnabled : Bool
  dontShowKey : Bool
  bgModeKey : Bool
  bannedCommands : List String
deriving DecidableEq, Repr

/-- The onProActivated callback registered in activate (extension.js lines
108-123) followed by handlePaidActivation (lines 374-384): reload
pollFrequency from the payment module, and, when pro is set and the
extension is enabled, restart polling (which recreates the fast-tick timer
at the current pollFrequency).  Status-bar and CDP calls are elided. -/
def onProActivated (now : Int) (s : ExtState) : ExtState :=
  let s1 := { s with pollFrequency := getPollFrequency s.pay now }
  if s1.pay.isPro = true ∧ s1.isEnabled = true then
    { s1 with fastTimer := some s1.pollFrequency }
  else s1

/-- handleToggle (extension.js lines 328-372): on enabling, a free user
with no recorded trial gets startTrial; then the enabled flag flips, is
persisted, and polling starts (fast timer created at pollFrequency) or
stops (timers cleared). -/
def handleToggle (now : Int) (s : ExtState) : ExtState :=
  let pay :=
    if s.isEnabled = false ∧ s.pay.isPro = false ∧ hasTrialStarted s.pay = false
    then startTrial s.pay now else s.pay
  let en := !s.isEnabled
  let s1 := { s with pay := pay, isEnabled := en, enabledKey := en }
  if en then { s1 with fastTimer := some s1.pollFrequency }
  else { s1 with fastTimer := none }

/-- handleFrequencyUpdate (extension.js lines 412-430): rejected without
pro access; otherwise pollFrequency is set and persisted, and, when
enabled, the running fast-tick timer is cleared and a new one created at
the new interval (cancel-then-recreate). -/
def handleFrequencyUpdate (now : Int) (freq : Int) (s : ExtState) : ExtState :=
  if hasProAccess s.pay now = false then s
  else
    let pay1 : PaymentModule :=
      { s.pay with ctx := s.pay.ctx.map fun st => { st with freqKey := some freq } }
    let s1 := { s with pollFrequency := freq, pay := pay1 }
    if s1.isEnabled then { s1 with fastTimer := some freq } else s1

/-- handleBannedCommandsUpdate (extension.js lines 432-446): rejected
without pro access; otherwise replaces the banned pattern list. -/
def handleBannedCommandsUpdate (now : Int) (cmds : List String)
    (s : ExtState) : ExtState :=
  if hasProAccess s.pay now = false then s
  else { s with bannedCommands := cmds }

/-- The effect of the license re-verification continuation in activate
(extension.js lines 183-197), applied to a resolved verdict `isValid`: on
a status change it calls setProStatus and, when neither valid nor in an
active trial, downgrades the pollFrequency variable to 300.  Note that no
branch touches the fast-tick timer. -/
def licenseReverifyApply (isValid : Bool) (now : Int) (s : ExtState) :
    ExtState :=
  if s.pay.isPro ≠ isValid then
    let pay := setProStatus s.pay isValid
    if isValid = false ∧ isTrialActive pay now = false then
      { s with pay := pay, pollFrequency := 300 }
    else { s with pay := pay }
  else s

/-- The full re-verification flow: verifyLicense against the network
result, then the continuation of extension.js lines 183-197. -/
def reverifyCommand (net : NetResult) (now : Int) (s : ExtState) : ExtState :=
  let r := verifyLicense s.pay net
  licenseReverifyApply r.1 now { s with pay := r.2 }

/-- activatePro (part_000 lines 201-240): verifyLicense; on success sets
`_isPro` directly, persists the pro key, rewrites the frequency key with
its current value (default 1000) and fires onProActivated; on failure
starts the background retry session (which leaves this state unchanged:
the session is modelled separately by runProPoll). -/
def activateProCmd (net : NetResult) (now : Int) (s : ExtState) : ExtState :=
  let r := verifyLicense s.pay net
  let s1 := { s with pay := r.2 }
  if r.1 then
    let pay : PaymentModule :=
      { isPro := true,
        ctx := s1.pay.ctx.map fun st =>
          { st with isProKey := true, freqKey := some (st.freqKey.getD 1000) } }
    onProActivated now { s1 with pay := pay }
  else s1

/-- The success path of one retry-session tick (part_000 lines 271-290):
sets `_isPro`, persists the pro key, and fires onProActivated. -/
def proPollSuccessApply (now : Int) (s : ExtState) : ExtState :=
  let pay : PaymentModule :=
    { isPro := true,
      ctx := s.pay.ctx.map fun st => { st with isProKey := true } }
  onProActivated now { s with pay := pay }

/-- handlePaidActivation (extension.js lines 374-384), the onPaid command:
returns early unless pro is verified; otherwise runs the CDP setup flow
and, when enabled, restarts polling. -/
def handlePaidActivationCmd (s : ExtState) : ExtState :=
  if s.pay.isPro = false then s
  else if s.isEnabled then { s with fastTimer := some s.pollFrequency }
  else s

/-- The public command surface registered in activate (extension.js lines
245-262) together with the deep-link URI handler (maps to activatePro),
the license re-verification flow, and the asynchronous success tick of the
retry session.  relaunch only shows an upgrade prompt or runs the CDP
setup flow, and getBannedCommands only reads state; neither mutates it.
Modelled from the spec: the settings panel behind openSettings is not
under src/; per the spec (sections 1 and 6) the settings/editor UI is an
excluded external collaborator and the command surface it offers is
exactly the commands listed here, so openSettings itself mutates no
coordination state. -/
inductive Command where
  | toggle (now : Int)
  | updateFrequency (freq : Int) (now : Int)
  | toggleBackground (cdpAvailable hasRelauncher : Bool) (choice : BgChoice)
      (now : Int)
  | updateBannedCommands (cmds : List String) (now : Int)
  | relaunch
  | openSettings
  | getBannedCommands
  | activatePro (net : NetResult) (now : Int)
  | onPaid
  | reverify (net : NetResult) (now : Int)
  | proPollSuccess (now : Int)

/-- One step of the public command surface. -/
def stepCommand (c : Command) (s : ExtState) : ExtState :=
  match c with
  | .toggle now => handleToggle now s
  | .updateFrequency freq now => handleFrequencyUpdate now freq s
  | .toggleBackground cdp rel choice now =>
      let r := handleBackgroundToggle (hasProAccess s.pay now) cdp rel choice
        ⟨s.backgroundModeEnabled, s.dontShowKey, s.bgModeKey⟩
      { s with backgroundModeEnabled := r.2.backgroundModeEnabled,
               dontShowKey := r.2.dontShowAgain,
               bgModeKey := r.2.bgModeKey }
  | .updateBannedCommands cmds now => handleBannedCommandsUpdate now cmds s
  | .relaunch => s
  | .openSettings => s
  | .getBannedCommands => s
  | .activatePro net now => activateProCmd net now s
  | .onPaid => handlePaidActivationCmd s
  | .reverify net now => reverifyCommand net now s
  | .proPollSuccess now => proPollSuccessApply now s

/-! ## Claim C1: the maintenance-tick lease check -/

/-- Claim C1, as stated, is false on the code: the maintenance tick in
startPolling stands by for a fresh foreign lease using a 15000 ms window,
not the claimed LEASE_TTL of 10 seconds.  Concretely, with holder "a" and
heartbeat 1000 recorded, instance "b" ticking at time 13000 observes
now - heartbeat = 12000 ms, which exceeds the claimed 10 s TTL, so the
claim predicts that "b" writes the lease keys and reports leader; the code
reports non-leader and performs no write. -/
theorem claim_C1_counterexample :
    tickLeaseCheck ⟨some "a", some 1000⟩ "b" 13000 =
      (false, ⟨some "a", some 1000⟩) ∧
    (13000 : Int) - 1000 > 10000 := by
  decide

/-- Claim C1 (amended): for every maintenance-tick lease check with inputs
(storedHolderId, storedLastHeartbeat, selfId, now): if no holder is
recorded, or no heartbeat is recorded, or the recorded heartbeat is at
least 15 seconds old, the instance writes (selfId, now) to the lease keys
and reports itself leader; if the recorded holder equals selfId it
rewrites the lease keys with (selfId, now) and reports leader; otherwise
(truthy foreign holder with a truthy heartbeat fresher than 15 s) it
reports non-leader and performs no write to the lease keys. -/
theorem claim_C1_lease_check_cases (s : TickLockState) (myId : String)
    (now : Int) :
    (s.activeInstance = none →
      tickLeaseCheck s myId now = (true, ⟨some myId, some now⟩)) ∧
    (s.lastPing = none →
      tickLeaseCheck s myId now = (true, ⟨some myId, some now⟩)) ∧
    (s.activeInstance = some myId →
      tickLeaseCheck s myId now = (true, ⟨some myId, some now⟩)) ∧
    (∀ a p, s.activeInstance = some a → s.lastPing = some p → a ≠ "" →
      a ≠ myId → p ≠ 0 →
      (now - p < 15000 → tickLeaseCheck s myId now = (false, s)) ∧
      (15000 ≤ now - p →
        tickLeaseCheck s myId now = (true, ⟨some myId, some now⟩))) := by
  obtain ⟨ai, lp⟩ := s
  refine ⟨?_, ?_, ?_, ?_⟩
  · rintro rfl; cases lp <;> rfl
  · rintro rfl; cases ai <;> rfl
  · rintro rfl
    cases lp with
    | none => rfl
    | some p =>
        simp only [tickLeaseCheck]
        rw [if_neg]
        rintro ⟨-, hne, -, -⟩
        exact hne rfl
  · rintro a p rfl rfl ha hm hp
    constructor
    · intro hlt
      simp only [tickLeaseCheck]
      rw [if_pos ⟨ha, hm, hp, hlt⟩]
    · intro hge
      simp only [tickLeaseCheck]
      rw [if_neg]
      rintro ⟨-, -, -, hlt⟩
      omega

/-- Witness for claim_C1_lease_check_cases: with holder "a" and heartbeat
5 recorded, instance "b" at time 10 stands by, and at time 16000 (15995 ms
after the heartbeat) takes the lease over. -/
theorem claim_C1_lease_check_cases_witness :
    tickLeaseCheck ⟨some "a", some 5⟩ "b" 10 = (false, ⟨some "a", some 5⟩) ∧
    tickLeaseCheck ⟨some "a", some 5⟩ "b" 16000 =
      (true, ⟨some "b", some 16000⟩) := by
  have h := claim_C1_lease_check_cases ⟨some "a", some 5⟩ "b"
  exact ⟨((h 10).2.2.2 "a" 5 rfl rfl (by decide) (by decide) (by decide)).1
      (by decide),
    ((h 16000).2.2.2 "a" 5 rfl rfl (by decide) (by decide) (by decide)).2
      (by decide)⟩

/-! ## Claim C2: at most one leader -/

/-- Claim C2, as stated, is false on the code: an instance that stops
ticking keeps reporting its stale leader belief.  From an empty store,
instance "a" ticks at time 5 and becomes leader; instance "b" ticks at
time 16005 and (the stored heartbeat being 16000 ms old) also becomes
leader.  At the sampled instant 16005, more than one full claimed TTL
interval (10 s) has elapsed during which no write at all (hence no write
race) occurred, yet both instances report themselves leader. -/
theorem claim_C2_counterexample :
    believesLeader ⟨none, none⟩ [("a", 5), ("b", 16005)] "a" = true ∧
    believesLeader ⟨none, none⟩ [("a", 5), ("b", 16005)] "b" = true ∧
    "a" ≠ "b" ∧ (16005 : Int) - 5 > 10000 := by
  decide

/-- Claim C2 (amended): exclusion holds relative to the 15 s freshness
window of the code, for instances that keep ticking.  (1) While the store
records a truthy holder h with a truthy heartbeat p, a maintenance tick of
any other instance at a time less than 15 s after p reports non-leader and
performs no write — so a second leader belief cannot survive the next
tick of the believing instance while the heartbeat is fresh.  (2) A tick
that does report leader against a recorded foreign holder must have
observed a heartbeat at least 15 s old — a leader change requires a full
15 s window without a heartbeat write.  (3) Over any whole trace of ticks
by other instances all falling within the freshness window, the store is
unchanged and every tick reports non-leader: the recorded holder is the
unique leader throughout. -/
theorem claim_C2_lease_exclusion (s : TickLockState) (h : String) (p : Int) :
    (∀ j now, s.activeInstance = some h → s.lastPing = some p → h ≠ "" →
      p ≠ 0 → j ≠ h → now - p < 15000 →
      tickLeaseCheck s j now = (false, s)) ∧
    (∀ j now, (tickLeaseCheck s j now).1 = true → s.activeInstance = some h →
      s.lastPing = some p → h ≠ "" → p ≠ 0 → h ≠ j →
      15000 ≤ now - p) ∧
    (∀ trace, s.activeInstance = some h → s.lastPing = some p → h ≠ "" →
      p ≠ 0 → (∀ x ∈ trace, x.1 ≠ h ∧ x.2 - p < 15000) →
      runTicks s trace = s ∧ ∀ r ∈ tickResults s trace, r = false) := by
  obtain ⟨ai, lp⟩ := s
  refine ⟨?_, ?_, ?_⟩
  · rintro j now rfl rfl hh hp hj hlt
    simp only [tickLeaseCheck]
    rw [if_pos ⟨hh, fun e => hj e.symm, hp, hlt⟩]
  · rintro j now htrue rfl rfl hh hp hj
    by_contra hc
    simp only [tickLeaseCheck] at htrue
    rw [if_pos ⟨hh, hj, hp, by omega⟩] at htrue
    exact Bool.false_ne_true htrue
  · intro trace
    induction trace with
    | nil =>
        intro _ _ _ _ _
        exact ⟨rfl, by intro r hr; cases hr⟩
    | cons x rest ih =>
        rintro rfl rfl hh hp hall
        obtain ⟨hx1, hx2⟩ := hall x (List.mem_cons_self x rest)
        have hstep : tickLeaseCheck ⟨some h, some p⟩ x.1 x.2 =
            (false, ⟨some h, some p⟩) := by
          simp only [tickLeaseCheck]
          rw [if_pos ⟨hh, fun e => hx1 e.symm, hp, hx2⟩]
        have hrest := ih rfl rfl hh hp
          (fun y hy => hall y (List.mem_cons_of_mem x hy))
        constructor
        · show runTicks (tickLeaseCheck ⟨some h, some p⟩ x.1 x.2).2 rest = _
          rw [hstep]
          exact hrest.1
        · intro r hr
          simp only [tickResults] at hr
          rw [hstep] at hr
          rcases List.mem_cons.1 hr with h1 | h2
          · exact h1
          · exact hrest.2 r h2

/-- Witness for claim_C2_lease_exclusion: with holder "a" and heartbeat 5,
a tick of "b" at time 10 stands by without writing, and a whole trace of
foreign ticks inside the freshness window leaves the store unchanged. -/
theorem claim_C2_lease_exclusion_witness :
    tickLeaseCheck ⟨some "a", some 5⟩ "b" 10 = (false, ⟨some "a", some 5⟩) ∧
    runTicks ⟨some "a", some 5⟩ [("b", 10), ("c", 20)] = ⟨some "a", some 5⟩ := by
  have h := claim_C2_lease_exclusion ⟨some "a", some 5⟩ "a" 5
  exact ⟨h.1 "b" 10 rfl rfl (by decide) (by decide) (by decide) (by decide),
    (h.2.2 [("b", 10), ("c", 20)] rfl rfl (by decide) (by decide)
      (by decide)).1⟩

/-! ## Claim C3: the bounded retry session -/

theorem proPollTick_done (probe : Nat → Bool) (s : ProPollState)
    (o : ProOutcome) (h : s.outcome = some o) : proPollTick probe s = s := by
  simp only [proPollTick, h]

theorem runProPoll_pending_segment (probe : Nat → Bool) :
    ∀ n, n ≤ 24 → (∀ m, 1 ≤ m → m ≤ n → probe m = false) →
    runProPoll probe n = ⟨n, n, none⟩ := by
  intro n
  induction n with
  | zero => intro _ _; rfl
  | succ n ih =>
      intro hle hf
      have hstate : runProPoll probe n = ⟨n, n, none⟩ :=
        ih (by omega) fun m h1 h2 => hf m h1 (by omega)
      show proPollTick probe (runProPoll probe n) = _
      rw [hstate]
      simp only [proPollTick]
      rw [if_neg (by simp only [MAX_PRO_POLLING_ATTEMPTS]; omega),
        hf (n + 1) (by omega) (le_refl _)]
      rfl

theorem runProPoll_stable (probe : Nat → Bool) (n : Nat) (o : ProOutcome)
    (h : (runProPoll probe n).outcome = some o) :
    ∀ m, n ≤ m → runProPoll probe m = runProPoll probe n := by
  intro m hm
  induction m, hm using Nat.le_induction with
  | base => rfl
  | succ m _ ih =>
      show proPollTick probe (runProPoll probe m) = _
      rw [ih, proPollTick_done probe _ o h]

theorem runProPoll_probeCalls_invariant (probe : Nat → Bool) (n : Nat) :
    (runProPoll probe n).probeCalls ≤ 24 ∧
    ((runProPoll probe n).outcome = none →
      (runProPoll probe n).attempts ≤ 24 ∧
      (runProPoll probe n).probeCalls = (runProPoll probe n).attempts) := by
  induction n with
  | zero => exact ⟨Nat.zero_le _, fun _ => ⟨Nat.zero_le _, rfl⟩⟩
  | succ n ih =>
      have hstep : runProPoll probe (n + 1) =
          proPollTick probe (runProPoll probe n) := rfl
      cases hs : (runProPoll probe n).outcome with
      | some o =>
          rw [hstep, proPollTick_done probe _ o hs]
          exact ih
      | none =>
          obtain ⟨ha, hpc⟩ := ih.2 hs
          have hpcle := ih.1
          rw [hstep]
          simp only [proPollTick, hs, MAX_PRO_POLLING_ATTEMPTS]
          split
          · exact ⟨hpcle, fun h => nomatch h⟩
          · rename_i hmax
            split
            · refine ⟨?_, fun h => nomatch h⟩
              show (runProPoll probe n).probeCalls + 1 ≤ 24
              omega
            · refine ⟨?_, fun _ => ⟨?_, ?_⟩⟩
              · show (runProPoll probe n).probeCalls + 1 ≤ 24
                omega
              · show (runProPoll probe n).attempts + 1 ≤ 24
                omega
              · show (runProPoll probe n).probeCalls + 1 =
                  (runProPoll probe n).attempts + 1
                omega

/-- Claim C3: for the retry session of startProPolling (maxAttempts = 24):
(1) if the probe fails on every invocation, after 25 or more timer firings
the session has invoked the probe exactly 24 times and reported exhausted;
(2) no run ever invokes the probe more than 24 times (never a 25th
invocation); (3) if the probe first succeeds on invocation k ≤ 24, the
session stops after exactly k probe invocations and reports succeeded;
(4) a reported outcome never changes — exactly one outcome per session;
(5) a freshly started session begins with the attempt counter reset to 0
and no outcome, independent of any prior session. -/
theorem claim_C3_retry_bounded :
    (∀ probe : Nat → Bool, (∀ k, 1 ≤ k → k ≤ 24 → probe k = false) →
      ∀ n, 25 ≤ n →
      runProPoll probe n = ⟨25, 24, some ProOutcome.exhausted⟩) ∧
    (∀ probe : Nat → Bool, ∀ n, (runProPoll probe n).probeCalls ≤ 24) ∧
    (∀ probe : Nat → Bool, ∀ k, 1 ≤ k → k ≤ 24 →
      (∀ m, 1 ≤ m → m < k → probe m = false) → probe k = true →
      ∀ n, k ≤ n → runProPoll probe n = ⟨k, k, some ProOutcome.succeeded⟩) ∧
    (∀ probe : Nat → Bool, ∀ n m o, n ≤ m →
      (runProPoll probe n).outcome = some o →
      (runProPoll probe m).outcome = some o) ∧
    startProPollingState = ⟨0, 0, none⟩ := by
  have hfail : ∀ probe : Nat → Bool, (∀ k, 1 ≤ k → k ≤ 24 → probe k = false) →
      runProPoll probe 25 = ⟨25, 24, some ProOutcome.exhausted⟩ := by
    intro probe hf
    show proPollTick probe (runProPoll probe 24) = _
    rw [runProPoll_pending_segment probe 24 (le_refl _) fun m h1 h2 => hf m h1 h2]
    simp only [proPollTick]
    rw [if_pos (by simp only [MAX_PRO_POLLING_ATTEMPTS]; omega)]
  have hsucc : ∀ probe : Nat → Bool, ∀ k, 1 ≤ k → k ≤ 24 →
      (∀ m, 1 ≤ m → m < k → probe m = false) → probe k = true →
      runProPoll probe k = ⟨k, k, some ProOutcome.succeeded⟩ := by
    intro probe k h1 h24 hm hk
    obtain ⟨j, rfl⟩ : ∃ j, k = j + 1 := ⟨k - 1, by omega⟩
    show proPollTick probe (runProPoll probe j) = _
    rw [runProPoll_pending_segment probe j (by omega) fun m hm1 hm2 =>
      hm m hm1 (by omega)]
    simp only [proPollTick]
    rw [if_neg (by simp only [MAX_PRO_POLLING_ATTEMPTS]; omega), hk]
    rfl
  refine ⟨?_, ?_, ?_, ?_, rfl⟩
  · intro probe hf n hn
    rw [runProPoll_stable probe 25 ProOutcome.exhausted
      (by rw [hfail probe hf]) n hn, hfail probe hf]
  · intro probe n
    exact (runProPoll_probeCalls_invariant probe n).1
  · intro probe k h1 h24 hm hk n hn
    rw [runProPoll_stable probe k ProOutcome.succeeded
      (by rw [hsucc probe k h1 h24 hm hk]) n hn, hsucc probe k h1 h24 hm hk]
  · intro probe n m o hnm ho
    rw [runProPoll_stable probe n o ho m hnm]
    exact ho

/-- Witness for claim_C3_retry_bounded: an always-failing probe yields
exactly 24 invocations then exhausted (sampled after 30 firings), and a
probe first succeeding on invocation 2 stops with 2 invocations. -/
theorem claim_C3_retry_bounded_witness :
    runProPoll (fun _ => false) 30 = ⟨25, 24, some ProOutcome.exhausted⟩ ∧
    runProPoll (fun a => a == 2) 5 = ⟨2, 2, some ProOutcome.succeeded⟩ := by
  constructor
  · exact claim_C3_retry_bounded.1 (fun _ => false) (fun k h1 h2 => rfl)
      30 (by omega)
  · refine claim_C3_retry_bounded.2.2.1 (fun a => a == 2) 2 (by omega)
      (by omega) ?_ rfl 5 (by omega)
    intro m h1 h2
    have hm1 : m = 1 := by omega
    subst hm1
    rfl

/-! ## Claim C4: cadence reconfiguration -/

theorem licenseReverifyApply_fastTimer (isValid : Bool) (now : Int)
    (s : ExtState) :
    (licenseReverifyApply isValid now s).fastTimer = s.fastTimer := by
  simp only [licenseReverifyApply]
  split
  · split <;> rfl
  · rfl

/-- Claim C4, as stated, is false on the code: the license re-verification
downgrade to the base tier does not replace the running fast-tick timer.
Concretely, for a pro state with the fast tick running at 1000 ms, a
re-verification that resolves invalid (network error, no active trial)
sets pollFrequency to 300 but leaves the running timer at its old 1000 ms
interval, so the next fire occurs at the old interval, not the new one. -/
theorem claim_C4_counterexample :
    (reverifyCommand NetResult.err 0
      ⟨⟨some ⟨true, none, false, some 1000, some "u", none⟩, true⟩,
        true, true, 1000, some 1000, false, false, false, []⟩).pollFrequency
      = 300 ∧
    (reverifyCommand NetResult.err 0
      ⟨⟨some ⟨true, none, false, some 1000, some "u", none⟩, true⟩,
        true, true, 1000, some 1000, false, false, false, []⟩).fastTimer
      = some 1000 := by
  exact ⟨rfl, rfl⟩

/-- Claim C4 (amended): changing PollCadence through the set-cadence
command while entitled and with the fast tick running replaces the timer
(cancel-then-recreate: the single timer slot afterwards holds exactly the
new interval, so the next fire occurs at the new interval and no second
timer exists to double-fire); without entitlement the command changes
nothing.  The license re-verification downgrade, by contrast, only lowers
the pollFrequency variable: it never replaces the running fast-tick timer,
which keeps firing at its old interval until polling is restarted. -/
theorem claim_C4_cadence_update (s : ExtState) (freq now : Int) :
    (hasProAccess s.pay now = true → s.isEnabled = true →
      (handleFrequencyUpdate now freq s).fastTimer = some freq ∧
      (handleFrequencyUpdate now freq s).pollFrequency = freq) ∧
    (hasProAccess s.pay now = false → handleFrequencyUpdate now freq s = s) ∧
    (∀ isValid, (licenseReverifyApply isValid now s).fastTimer = s.fastTimer) ∧
    (∀ net, (reverifyCommand net now s).fastTimer = s.fastTimer) := by
  refine ⟨?_, ?_, fun isValid => licenseReverifyApply_fastTimer isValid now s,
    fun net => licenseReverifyApply_fastTimer _ now _⟩
  · intro hpro hen
    simp only [handleFrequencyUpdate, hpro]
    rw [if_neg (by simp), if_pos hen]
    exact ⟨rfl, rfl⟩
  · intro hpro
    simp only [handleFrequencyUpdate, hpro]
    rw [if_pos trivial]

/-- Witness for claim_C4_cadence_update: a pro, enabled state with the
fast tick at 1000 ms; the set-cadence command with 300 ms leaves a single
timer at 300 ms. -/
theorem claim_C4_cadence_update_witness :
    (handleFrequencyUpdate 0 300
      ⟨⟨some ⟨true, none, false, some 1000, some "u", none⟩, true⟩,
        true, true, 1000, some 1000, false, false, false, []⟩).fastTimer
      = some 300 := by
  exact ((claim_C4_cadence_update
    ⟨⟨some ⟨true, none, false, some 1000, some "u", none⟩, true⟩,
      true, true, 1000, some 1000, false, false, false, []⟩ 300 0).1
    (by decide) rfl).1

/-! ## Claim C5: the trial-expiry notification fires at most once per
trial lifecycle -/

theorem checkTrialExpiration_notified_noop (m : PaymentModule)
    (s : GlobalStore) (now : Int) (hctx : m.ctx = some s)
    (hn : s.trialNotified = true) :
    checkTrialExpiration m now = (m, false) := by
  obtain ⟨ctx, ip⟩ := m
  cases hctx
  simp only [checkTrialExpiration]
  split
  · rfl
  · rw [if_neg]
    rintro ⟨-, -, h3⟩
    rw [hn] at h3
    exact Bool.noConfusion h3

/-- Claim C5: (1) a check observing a recorded (truthy) trial start, an
expired trial, entitlement false and a clear notified flag sets the flag
and notifies; (2) once the flag is set, any sequence of further checks
shows zero notifications; (3) setProStatus true clears the flag; (4) after
an upgrade (setProStatus true) followed by a downgrade (setProStatus
false), a check observing an expired recorded trial notifies again. -/
theorem claim_C5_notify_once (m : PaymentModule) (s : GlobalStore) :
    (∀ now, m.ctx = some s → m.isPro = false → s.trialStart.getD 0 ≠ 0 →
      isTrialActive m now = false → s.trialNotified = false →
      checkTrialExpiration m now =
        ({ m with ctx := some { s with trialNotified := true } }, true)) ∧
    (m.ctx = some s → s.trialNotified = true →
      ∀ ts : List Int, (runChecks m ts).2 = 0) ∧
    (m.ctx = some s → (setProStatus m true).ctx =
      some { s with isProKey := true, trialNotified := false }) ∧
    (∀ t now2, m.ctx = some s → s.trialStart = some t → t ≠ 0 →
      TRIAL_DURATION_MS ≤ now2 - t →
      (checkTrialExpiration (setProStatus (setProStatus m true) false)
        now2).2 = true) := by
  obtain ⟨ctx, ip⟩ := m
  refine ⟨?_, ?_, ?_, ?_⟩
  · rintro now rfl rfl h1 h2 h3
    simp only [checkTrialExpiration]
    rw [if_neg (by simp), if_pos ⟨h1, h2, h3⟩]
  · rintro rfl hn ts
    induction ts with
    | nil => rfl
    | cons now rest ih =>
        simp only [runChecks,
          checkTrialExpiration_notified_noop ⟨some s, ip⟩ s now rfl hn, ih]
        rfl
  · rintro rfl
    rfl
  · rintro t now2 rfl hts ht0 hexp
    have hstate : setProStatus (setProStatus ⟨some s, ip⟩ true) false =
        ⟨some { s with isProKey := false, trialNotified := false }, false⟩ :=
      rfl
    have hact : isTrialActive
        ⟨some { s with isProKey := false, trialNotified := false }, false⟩
        now2 = false := by
      simp only [isTrialActive, hts]
      rw [if_neg ht0]
      exact decide_eq_false (by omega)
    rw [hstate]
    simp only [checkTrialExpiration]
    rw [if_neg (by simp), if_pos ⟨by simp [hts, ht0], hact, trivial⟩]

/-- Witness for claim_C5_notify_once: a free account whose trial started
at time 1 and is checked at time 259200001 (just past the 3-day duration)
notifies and sets the flag; with the flag set, two further checks notify
zero times; an upgrade clears the flag; after upgrade and downgrade the
expired trial notifies again. -/
theorem claim_C5_notify_once_witness :
    checkTrialExpiration ⟨some ⟨false, some 1, false, none, none, none⟩, false⟩
        259200001 =
      (⟨some ⟨false, some 1, true, none, none, none⟩, false⟩, true) ∧
    (runChecks ⟨some ⟨false, some 1, true, none, none, none⟩, false⟩
        [259200001, 259200002]).2 = 0 ∧
    (setProStatus ⟨some ⟨false, some 1, true, none, none, none⟩, false⟩
        true).ctx = some ⟨true, some 1, false, none, none, none⟩ ∧
    (checkTrialExpiration
        (setProStatus (setProStatus
          ⟨some ⟨false, some 1, true, none, none, none⟩, false⟩ true) false)
        259200001).2 = true := by
  have h1 := claim_C5_notify_once
    ⟨some ⟨false, some 1, false, none, none, none⟩, false⟩
    ⟨false, some 1, false, none, none, none⟩
  have h2 := claim_C5_notify_once
    ⟨some ⟨false, some 1, true, none, none, none⟩, false⟩
    ⟨false, some 1, true, none, none, none⟩
  exact ⟨h1.1 259200001 rfl rfl (by decide) (by decide) rfl,
    h2.2.1 rfl rfl [259200001, 259200002],
    h2.2.2.1 rfl,
    h2.2.2.2 1 259200001 rfl rfl (by decide) (by decide)⟩

/-! ## Claim C6: the trial clock -/

/-- Claim C6: for a recorded (positive) trial start t, isTrialActive is
true exactly when now - t < TRIAL_DURATION_MS (3 days); in particular true
one millisecond before expiry and false one millisecond after; and it is
false whenever no trial start is recorded (absent key or uninitialized
module). -/
theorem claim_C6_trial_clock (m : PaymentModule) (s : GlobalStore)
    (t now : Int) :
    (m.ctx = some s → s.trialStart = some t → 0 < t →
      isTrialActive m now = decide (now - t < TRIAL_DURATION_MS) ∧
      isTrialActive m (t + TRIAL_DURATION_MS - 1) = true ∧
      isTrialActive m (t + TRIAL_DURATION_MS + 1) = false) ∧
    (m.ctx = some s → s.trialStart = none → isTrialActive m now = false) ∧
    (m.ctx = none → isTrialActive m now = false) := by
  obtain ⟨ctx, ip⟩ := m
  refine ⟨?_, ?_, ?_⟩
  · rintro rfl hts ht
    have ht0 : t ≠ 0 := by omega
    simp only [isTrialActive, hts]
    refine ⟨by rw [if_neg ht0], ?_, ?_⟩
    · rw [if_neg ht0]
      exact decide_eq_true (by omega)
    · rw [if_neg ht0]
      exact decide_eq_false (by omega)
  · rintro rfl hts
    simp only [isTrialActive, hts]
  · rintro rfl
    rfl

/-- Witness for claim_C6_trial_clock: trial started at time 1, duration
259200000 ms; active at 259200000, inactive at 259200002. -/
theorem claim_C6_trial_clock_witness :
    isTrialActive ⟨some ⟨false, some 1, false, none, none, none⟩, false⟩
      259200000 = true ∧
    isTrialActive ⟨some ⟨false, some 1, false, none, none, none⟩, false⟩
      259200002 = false := by
  have h := (claim_C6_trial_clock
    ⟨some ⟨false, some 1, false, none, none, none⟩, false⟩
    ⟨false, some 1, false, none, none, none⟩ 1 0).1 rfl rfl (by decide)
  exact ⟨h.2.1, h.2.2⟩

/-! ## Claim C7: background-mode toggle gating -/

/-- Claim C7: a background-mode toggle request without entitlement is
rejected synchronously with a user-visible denial and no state change
(neither the in-process mode flag nor the persisted keys); a request from
an entitled state to turn the mode on while the external resource is
unreachable (with the setup component initialized) defers: the setup flow
is requested and the state is unchanged instead of transitioning. -/
theorem claim_C7_background_gating (hasPro cdpAvailable hasRelauncher : Bool)
    (choice : BgChoice) (s : BgState) :
    (hasPro = false →
      handleBackgroundToggle hasPro cdpAvailable hasRelauncher choice s =
        (BgAction.denied, s)) ∧
    (hasPro = true → s.backgroundModeEnabled = false → cdpAvailable = false →
      hasRelauncher = true →
      handleBackgroundToggle hasPro cdpAvailable hasRelauncher choice s =
        (BgAction.setupRequested, s)) := by
  constructor
  · rintro rfl
    rfl
  · rintro rfl hbg hcdp hrel
    simp only [handleBackgroundToggle]
    rw [if_neg (by simp), if_pos ⟨hbg, hcdp, hrel⟩]

/-- Witness for claim_C7_background_gating: a free user is denied with the
state unchanged; an entitled user with CDP unreachable gets the setup flow
with the state unchanged. -/
theorem claim_C7_background_gating_witness :
    handleBackgroundToggle false true true BgChoice.enable ⟨false, false, false⟩ =
      (BgAction.denied, ⟨false, false, false⟩) ∧
    handleBackgroundToggle true false true BgChoice.enable ⟨false, false, false⟩ =
      (BgAction.setupRequested, ⟨false, false, false⟩) := by
  exact ⟨(claim_C7_background_gating false true true BgChoice.enable
      ⟨false, false, false⟩).1 rfl,
    (claim_C7_background_gating true false true BgChoice.enable
      ⟨false, false, false⟩).2 rfl rfl rfl rfl⟩

/-! ## Claim C8: entitlement round-trip through the durable store -/

theorem checkTrialExpiration_hasProAccess (m : PaymentModule) (now now2 : Int) :
    hasProAccess (checkTrialExpiration m now).1 now2 = hasProAccess m now2 := by
  obtain ⟨ctx, ip⟩ := m
  cases ctx with
  | none => rfl
  | some s =>
      simp only [checkTrialExpiration]
      split
      · rfl
      · split
        · simp only [hasProAccess, isTrialActive]
        · rfl

/-- Claim C8: for a module state whose cached pro flag agrees with the
persisted pro key (as maintained by init, setProStatus and activation),
re-initializing from the persisted store and evaluating hasProAccess at
the same wall-clock instant gives the same result as before the restart. -/
theorem claim_C8_roundtrip (m : PaymentModule) (s : GlobalStore) (now : Int)
    (hctx : m.ctx = some s) (hsync : m.isPro = s.isProKey) :
    hasProAccess (paymentInit s now) now = hasProAccess m now := by
  obtain ⟨ctx, ip⟩ := m
  cases hctx
  cases hsync
  exact checkTrialExpiration_hasProAccess ⟨some s, s.isProKey⟩ now now

/-- Witness for claim_C8_roundtrip: a non-pro store with a live trial
(started at 1, evaluated at 2) has pro access both before and after the
restart. -/
theorem claim_C8_roundtrip_witness :
    hasProAccess (paymentInit ⟨false, some 1, false, none, none, none⟩ 2) 2 =
      hasProAccess ⟨some ⟨false, some 1, false, none, none, none⟩, false⟩ 2 ∧
    hasProAccess ⟨some ⟨false, some 1, false, none, none, none⟩, false⟩ 2 =
      true := by
  exact ⟨claim_C8_roundtrip
    ⟨some ⟨false, some 1, false, none, none, none⟩, false⟩
    ⟨false, some 1, false, none, none, none⟩ 2 rfl rfl, by decide⟩

/-! ## Claim C9: totality of the entitlement queries without a context -/

/-- Claim C9: with the module uninitialized (no stored context, initial
pro flag), every entitlement query returns its safe default: isTrialActive,
hasTrialStarted and hasProAccess are false, getTrialDaysLeft is 0,
getPollFrequency is the base tier 300 ms, and verifyLicense resolves to
false whatever the network would answer; all are total functions. -/
theorem claim_C9_uninitialized_defaults (now : Int) (net : NetResult) :
    isTrialActive uninitializedPayment now = false ∧
    hasTrialStarted uninitializedPayment = false ∧
    hasProAccess uninitializedPayment now = false ∧
    getTrialDaysLeft uninitializedPayment now = 0 ∧
    getPollFrequency uninitializedPayment now = 300 ∧
    (verifyLicense uninitializedPayment net).1 = false := by
  exact ⟨rfl, rfl, rfl, rfl, rfl, rfl⟩

/-! ## Claim C10: the stored trial start is immutable once set -/

theorem onProActivated_pay (now : Int) (s : ExtState) :
    (onProActivated now s).pay = s.pay := by
  simp only [onProActivated]
  split <;> rfl

theorem hasTrialStarted_some (m : PaymentModule) (st : GlobalStore)
    (hctx : m.ctx = some st) : hasTrialStarted m = st.trialStart.isSome := by
  obtain ⟨ctx, ip⟩ := m
  cases hctx
  rfl

theorem verifyLicense_trialStart (m : PaymentModule) (net : NetResult)
    (st : GlobalStore) (ts : Int) (hctx : m.ctx = some st)
    (hts : st.trialStart = some ts) :
    ∃ st2, (verifyLicense m net).2.ctx = some st2 ∧
      st2.trialStart = some ts := by
  obtain ⟨ctx, ip⟩ := m
  cases hctx
  simp only [verifyLicense]
  split
  · exact ⟨st, rfl, hts⟩
  · cases net with
    | err => exact ⟨st, rfl, hts⟩
    | ok isProField plan =>
        simp only
        split
        · exact ⟨{ st with plan := plan }, rfl, hts⟩
        · exact ⟨st, rfl, hts⟩

theorem setProStatus_trialStart (m : PaymentModule) (v : Bool)
    (st : GlobalStore) (ts : Int) (hctx : m.ctx = some st)
    (hts : st.trialStart = some ts) :
    ∃ st2, (setProStatus m v).ctx = some st2 ∧ st2.trialStart = some ts := by
  obtain ⟨ctx, ip⟩ := m
  cases hctx
  exact ⟨_, rfl, hts⟩

theorem licenseReverifyApply_trialStart (isValid : Bool) (now : Int)
    (s : ExtState) (st : GlobalStore) (ts : Int)
    (hctx : s.pay.ctx = some st) (hts : st.trialStart = some ts) :
    ∃ st2, (licenseReverifyApply isValid now s).pay.ctx = some st2 ∧
      st2.trialStart = some ts := by
  simp only [licenseReverifyApply]
  split
  · split
    · exact setProStatus_trialStart s.pay isValid st ts hctx hts
    · exact setProStatus_trialStart s.pay isValid st ts hctx hts
  · exact ⟨st, hctx, hts⟩

/-- Claim C10: once a trial start timestamp is stored, no command of the
public surface (toggle, set-cadence, background toggle, banned-pattern
update, relaunch, settings, activation, paid callback, re-verification, or
a retry-session success) overwrites it: the enable toggle guards its only
startTrial call with hasTrialStarted, which is true whenever the key is
recorded, and every other operation preserves the trial-start key. -/
theorem claim_C10_trial_start_immutable (c : Command) (s : ExtState)
    (st : GlobalStore) (ts : Int) (hctx : s.pay.ctx = some st)
    (hts : st.trialStart = some ts) :
    ∃ st2, (stepCommand c s).pay.ctx = some st2 ∧
      st2.trialStart = some ts := by
  have hstarted : hasTrialStarted s.pay = true := by
    rw [hasTrialStarted_some s.pay st hctx, hts]
    rfl
  cases c with
  | toggle now =>
      have hng : ¬(s.isEnabled = false ∧ s.pay.isPro = false ∧
          hasTrialStarted s.pay = false) := by
        rintro ⟨-, -, h3⟩
        rw [hstarted] at h3
        exact Bool.noConfusion h3
      simp only [stepCommand, handleToggle]
      rw [if_neg hng]
      cases hen : s.isEnabled
      · exact ⟨st, hctx, hts⟩
      · exact ⟨st, hctx, hts⟩
  | updateFrequency freq now =>
      simp only [stepCommand, handleFrequencyUpdate]
      split
      · exact ⟨st, hctx, hts⟩
      · split
        · exact ⟨{ st with freqKey := some freq }, by rw [hctx]; rfl, hts⟩
        · exact ⟨{ st with freqKey := some freq }, by rw [hctx]; rfl, hts⟩
  | toggleBackground cdp rel choice now => exact ⟨st, hctx, hts⟩
  | updateBannedCommands cmds now =>
      simp only [stepCommand, handleBannedCommandsUpdate]
      split
      · exact ⟨st, hctx, hts⟩
      · exact ⟨st, hctx, hts⟩
  | relaunch => exact ⟨st, hctx, hts⟩
  | openSettings => exact ⟨st, hctx, hts⟩
  | getBannedCommands => exact ⟨st, hctx, hts⟩
  | activatePro net now =>
      obtain ⟨st1, hst1, hts1⟩ :=
        verifyLicense_trialStart s.pay net st ts hctx hts
      simp only [stepCommand, activateProCmd]
      split
      · rw [onProActivated_pay]
        show ∃ st2, Option.map _ (verifyLicense s.pay net).2.ctx = some st2 ∧
          st2.trialStart = some ts
        rw [hst1]
        exact ⟨_, rfl, hts1⟩
      · exact ⟨st1, hst1, hts1⟩
  | onPaid =>
      simp only [stepCommand, handlePaidActivationCmd]
      split
      · exact ⟨st, hctx, hts⟩
      · split
        · exact ⟨st, hctx, hts⟩
        · exact ⟨st, hctx, hts⟩
  | reverify net now =>
      obtain ⟨st1, hst1, hts1⟩ :=
        verifyLicense_trialStart s.pay net st ts hctx hts
      simp only [stepCommand, reverifyCommand]
      exact licenseReverifyApply_trialStart _ now _ st1 ts hst1 hts1
  | proPollSuccess now =>
      simp only [stepCommand, proPollSuccessApply]
      rw [onProActivated_pay]
      show ∃ st2, Option.map _ s.pay.ctx = some st2 ∧
        st2.trialStart = some ts
      rw [hctx]
      exact ⟨_, rfl, hts⟩

/-- Witness for claim_C10_trial_start_immutable: with a trial started at
time 7, the enable toggle does not overwrite the stored trial start. -/
theorem claim_C10_trial_start_immutable_witness :
    ∃ st2,
      (stepCommand (Command.toggle 99)
        ⟨⟨some ⟨false, some 7, false, none, none, none⟩, false⟩,
          false, false, 300, none, false, false, false, []⟩).pay.ctx =
        some st2 ∧
      st2.trialStart = some 7 := by
  exact claim_C10_trial_start_immutable (Command.toggle 99)
    ⟨⟨some ⟨false, some 7, false, none, none, none⟩, false⟩,
      false, false, 300, none, false, false, false, []⟩
    ⟨false, some 7, false, none, none, none⟩ 7 rfl rfl

end AutoAccept
